import Mathlib

/-!
Shallow embedding of the embedded-sensors HAL crates (blocking and async),
covering the error model in sensor.rs, the decl_threshold_traits macro that
generates the threshold trait families, the reference-forwarding impls for
exclusive mutable handles, and the mock drivers used by the test modules.
Stateful Rust methods taking exclusive mutable access become explicit
state-passing functions returning a result paired with the next state.
-/

namespace EmbeddedSensors

/-! ## Sample type

Every quantity defined by the crates samples as a single-precision float
(f32). No arithmetic is ever performed on samples by this layer: they are
only stored, forwarded and returned, so an f32 is modelled as its 32-bit
pattern. -/

structure F32 where
  bits : Fin (2 ^ 32)
deriving DecidableEq

/-- Type alias DegreesCelsius = f32 from temperature.rs. -/
abbrev DegreesCelsius := F32

/-- Type alias Percentage = f32 from humidity.rs. -/
abbrev Percentage := F32

/-! ## Error model (embedded-sensors/src/sensor.rs) -/

/-- Sensor error kind: the closed set of generic sensor error categories. -/
inductive ErrorKind where
  | Peripheral
  | NotReady
  | Saturated
  | InvalidInput
  | Other
deriving DecidableEq, Repr

/-- Dictionary for the Error trait: a type exposing a total conversion of
its values to a generic ErrorKind. -/
structure ErrorTrait (E : Type) where
  kind : E → ErrorKind

/-- Impl of Error for ErrorKind itself: kind returns *self. -/
def errorKindErrorImpl : ErrorTrait ErrorKind :=
  { kind := fun k => k }

/-- core convert Infallible: an uninhabited type. -/
inductive Infallible : Type

/-- Impl of Error for Infallible: the body is an empty match, exhaustive
over the zero constructors. -/
def infallibleErrorImpl : ErrorTrait Infallible :=
  { kind := fun e => nomatch e }

/-- Dictionary for the ErrorType trait: associates one Error-implementing
type with each implementing Self type. -/
structure ErrorTypeDict (Self : Type) where
  Error : Type
  errorImpl : ErrorTrait Error

/-- An exclusive mutable reference to a value of type T. -/
structure MutRef (T : Type) where
  deref : T

/-- Impl of ErrorType for the mutable reference type: type Error = T Error. -/
def mutRefErrorType {T : Type} (d : ErrorTypeDict T) : ErrorTypeDict (MutRef T) :=
  { Error := d.Error, errorImpl := d.errorImpl }

/-- Generic retrieval of the ErrorKind from the result of a fallible
capability operation: generic code sees only the Error dictionary, never
the concrete error type. -/
def errorKindOf {E A : Type} (d : ErrorTrait E) : Except E A → Option ErrorKind
  | .ok _ => none
  | .error e => some (d.kind e)

/-! ## The decl_threshold_traits macro (embedded-sensors/src/sensor.rs)

The macro is embedded as a function on its invocation token list. It has
exactly two arms: one whose first token is the identifier `blocking` and
one whose first token is the keyword `async`; any other invocation matches
no arm and expansion fails (modelled as none). The generated trait family
is described by the names, supertraits and operation signatures the paste
machinery produces. -/

/-- Tokens an invocation of the macro may pass: identifiers (also covering
the type argument, which is an identifier at every call site), the keyword
async, and string literals (the unit label). -/
inductive MacroToken where
  | ident (s : String)
  | kwAsync
  | strLit (s : String)
deriving DecidableEq

/-- An operation declared inside a generated trait. -/
structure TraitOp where
  name : String
  isAsync : Bool
  paramTypes : List String
  resultType : String
deriving DecidableEq, Repr

/-- A generated trait declaration: its name, its supertrait bound, and its
operations. -/
structure TraitDecl where
  name : String
  supertrait : String
  ops : List TraitOp
deriving DecidableEq, Repr

/-- The full output of one macro expansion: the declared traits in source
order, and the names of the traits that also receive a forwarding impl for
the mutable reference type. -/
structure TraitFamily where
  traits : List TraitDecl
  mutRefImpls : List String
deriving DecidableEq, Repr

/-- Snake-case conversion as performed by the paste crate for the
`:snake` modifier: lowercase everything and insert an underscore before an
uppercase letter that follows a lowercase letter or a digit. -/
def snakeCase (s : String) : String :=
  (s.toList.foldl
    (fun (acc : String × Option Char) c =>
      let out :=
        if c.isUpper then
          match acc.2 with
          | some p =>
            if p.isLower || p.isDigit then (acc.1.push '_').push c.toLower
            else acc.1.push c.toLower
          | none => acc.1.push c.toLower
        else acc.1.push c
      (out, some c))
    ("", none)).1

/-- Expansion of the blocking arm: a ThresholdSet trait (supertrait: the
base sensor trait) with the two setters, a Hysteresis trait (supertrait:
ThresholdSet) with one setter, and forwarding impls for both. The unit
string only reaches documentation text. -/
def blockingThresholdTraits (name sensorTrait sampleTy : String) (_unit : String) :
    TraitFamily :=
  let snake := snakeCase name
  { traits :=
      [ { name := name ++ "ThresholdSet", supertrait := sensorTrait,
          ops :=
            [ { name := "set_" ++ snake ++ "_threshold_low", isAsync := false,
                paramTypes := [sampleTy], resultType := "()" },
              { name := "set_" ++ snake ++ "_threshold_high", isAsync := false,
                paramTypes := [sampleTy], resultType := "()" } ] },
        { name := name ++ "Hysteresis", supertrait := name ++ "ThresholdSet",
          ops :=
            [ { name := "set_" ++ snake ++ "_threshold_hysteresis", isAsync := false,
                paramTypes := [sampleTy], resultType := "()" } ] } ],
    mutRefImpls := [name ++ "ThresholdSet", name ++ "Hysteresis"] }

/-- Expansion of the async arm: the same ThresholdSet and Hysteresis traits
with async operations, plus a ThresholdWait trait (supertrait:
ThresholdSet) whose single async operation waits for a threshold crossing
and returns the sample present at crossing time; forwarding impls for all
three. -/
def asyncThresholdTraits (name sensorTrait sampleTy : String) (_unit : String) :
    TraitFamily :=
  let snake := snakeCase name
  { traits :=
      [ { name := name ++ "ThresholdSet", supertrait := sensorTrait,
          ops :=
            [ { name := "set_" ++ snake ++ "_threshold_low", isAsync := true,
                paramTypes := [sampleTy], resultType := "()" },
              { name := "set_" ++ snake ++ "_threshold_high", isAsync := true,
                paramTypes := [sampleTy], resultType := "()" } ] },
        { name := name ++ "ThresholdWait", supertrait := name ++ "ThresholdSet",
          ops :=
            [ { name := "wait_for_" ++ snake ++ "_threshold", isAsync := true,
                paramTypes := [], resultType := sampleTy } ] },
        { name := name ++ "Hysteresis", supertrait := name ++ "ThresholdSet",
          ops :=
            [ { name := "set_" ++ snake ++ "_threshold_hysteresis", isAsync := true,
                paramTypes := [sampleTy], resultType := "()" } ] } ],
    mutRefImpls :=
      [name ++ "ThresholdSet", name ++ "ThresholdWait", name ++ "Hysteresis"] }

/-- The macro decl_threshold_traits: matches the blocking arm when the
first token is the identifier blocking, the async arm when it is the
keyword async, and fails (no arm matches) on any other token sequence. -/
def decl_threshold_traits : List MacroToken → Option TraitFamily
  | [.ident "blocking", .ident name, .ident sensorTrait, .ident sampleTy, .strLit unit] =>
    some (blockingThresholdTraits name sensorTrait sampleTy unit)
  | [.kwAsync, .ident name, .ident sensorTrait, .ident sampleTy, .strLit unit] =>
    some (asyncThresholdTraits name sensorTrait sampleTy unit)
  | _ => none

/-- The invocation in embedded-sensors/src/temperature.rs. -/
def blockingTemperatureInvocation : List MacroToken :=
  [ MacroToken.ident "blocking", MacroToken.ident "Temperature",
    MacroToken.ident "TemperatureSensor", MacroToken.ident "DegreesCelsius",
    MacroToken.strLit "degrees Celsius" ]

/-- The invocation in embedded-sensors/src/humidity.rs. -/
def blockingHumidityInvocation : List MacroToken :=
  [ MacroToken.ident "blocking", MacroToken.ident "RelativeHumidity",
    MacroToken.ident "RelativeHumiditySensor", MacroToken.ident "Percentage",
    MacroToken.strLit "percentage" ]

/-- The invocation in embedded-sensors-async/src/humidity.rs, exactly as it
appears in the source: four arguments and no mode selector token. -/
def asyncHumidityInvocation : List MacroToken :=
  [ MacroToken.ident "RelativeHumidity", MacroToken.ident "RelativeHumiditySensor",
    MacroToken.ident "Percentage", MacroToken.strLit "percentage" ]

/-! ## Sensor capability dictionaries and reference forwarding

Each trait becomes a dictionary over the implementing state type S and the
associated error type E. A method taking an exclusive mutable reference
becomes a function from the state to a result paired with the next state.
The impl of a trait for an exclusive mutable handle forwards each call to
the underlying implementation unchanged, mirroring the
`impl Trait for &mut T` blocks verbatim; in state-passing form the handle
operates on the same state. Async methods are modelled by the same
state-passing shape: each suspension resumes exactly once with its
result. -/

/-- Dictionary for TemperatureSensor (blocking, temperature.rs). -/
structure TemperatureSensorDict (S E : Type) where
  temperature : S → Except E DegreesCelsius × S

/-- Impl of TemperatureSensor for the mutable reference: forwards the call
to the underlying implementation. -/
def mutRefTemperatureSensor {S E : Type} (d : TemperatureSensorDict S E) :
    TemperatureSensorDict S E :=
  { temperature := fun s => d.temperature s }

/-- Dictionary for RelativeHumiditySensor (blocking humidity.rs and, with
identical state-passing shape, the async variant). -/
structure RelativeHumiditySensorDict (S E : Type) where
  relative_humidity : S → Except E Percentage × S

/-- Impl of RelativeHumiditySensor for the mutable reference. -/
def mutRefRelativeHumiditySensor {S E : Type} (d : RelativeHumiditySensorDict S E) :
    RelativeHumiditySensorDict S E :=
  { relative_humidity := fun s => d.relative_humidity s }

/-- Dictionary for a generated ThresholdSet trait: the two setters, named
set_<quantity>_threshold_low and set_<quantity>_threshold_high at each
instantiation of the macro template. -/
structure ThresholdSetDict (S E Sample : Type) where
  set_threshold_low : S → Sample → Except E Unit × S
  set_threshold_high : S → Sample → Except E Unit × S

/-- Forwarding impl of a generated ThresholdSet trait for the mutable
reference. -/
def mutRefThresholdSet {S E Sample : Type} (d : ThresholdSetDict S E Sample) :
    ThresholdSetDict S E Sample :=
  { set_threshold_low := fun s t => d.set_threshold_low s t,
    set_threshold_high := fun s t => d.set_threshold_high s t }

/-- Dictionary for a generated Hysteresis trait: one setter. -/
structure HysteresisDict (S E Sample : Type) where
  set_threshold_hysteresis : S → Sample → Except E Unit × S

/-- Forwarding impl of a generated Hysteresis trait for the mutable
reference. -/
def mutRefHysteresis {S E Sample : Type} (d : HysteresisDict S E Sample) :
    HysteresisDict S E Sample :=
  { set_threshold_hysteresis := fun s t => d.set_threshold_hysteresis s t }

/-- Dictionary for a generated ThresholdWait trait (async arm only): the
single wait operation returning the sample at crossing time. -/
structure ThresholdWaitDict (S E Sample : Type) where
  wait_for_threshold : S → Except E Sample × S

/-- Forwarding impl of a generated ThresholdWait trait for the mutable
reference. -/
def mutRefThresholdWait {S E Sample : Type} (d : ThresholdWaitDict S E Sample) :
    ThresholdWaitDict S E Sample :=
  { wait_for_threshold := fun s => d.wait_for_threshold s }

/-! ## Mock drivers from the test modules -/

/-- MockError: the unit error struct used by the test modules. -/
structure MockError where
deriving DecidableEq

/-- Impl of Error for MockError: kind always returns Other. -/
def mockErrorImpl : ErrorTrait MockError :=
  { kind := fun _ => ErrorKind.Other }

/-- MockTempSensor state (temperature.rs test module). -/
structure MockTempSensor where
  value : DegreesCelsius
  threshold_low : Option DegreesCelsius
  threshold_high : Option DegreesCelsius
  hysteresis : Option DegreesCelsius
deriving DecidableEq

/-- Impl of TemperatureSensor for MockTempSensor: Ok(self.value). -/
def MockTempSensor.temperature (s : MockTempSensor) :
    Except MockError DegreesCelsius × MockTempSensor :=
  (.ok s.value, s)

/-- Impl of TemperatureThresholdSet for MockTempSensor: the low setter
stores Some(threshold) in threshold_low. -/
def MockTempSensor.set_temperature_threshold_low (s : MockTempSensor)
    (threshold : DegreesCelsius) : Except MockError Unit × MockTempSensor :=
  (.ok (), { s with threshold_low := some threshold })

/-- Impl of TemperatureThresholdSet for MockTempSensor: the high setter
stores Some(threshold) in threshold_high. -/
def MockTempSensor.set_temperature_threshold_high (s : MockTempSensor)
    (threshold : DegreesCelsius) : Except MockError Unit × MockTempSensor :=
  (.ok (), { s with threshold_high := some threshold })

/-- Impl of TemperatureHysteresis for MockTempSensor. -/
def MockTempSensor.set_temperature_threshold_hysteresis (s : MockTempSensor)
    (hysteresis : DegreesCelsius) : Except MockError Unit × MockTempSensor :=
  (.ok (), { s with hysteresis := some hysteresis })

/-- MockHumiditySensor state (blocking humidity.rs test module). -/
structure MockHumiditySensor where
  value : Percentage
  threshold_low : Option Percentage
  threshold_high : Option Percentage
  hysteresis : Option Percentage
deriving DecidableEq

/-- Impl of RelativeHumiditySensor for MockHumiditySensor: Ok(self.value). -/
def MockHumiditySensor.relative_humidity (s : MockHumiditySensor) :
    Except MockError Percentage × MockHumiditySensor :=
  (.ok s.value, s)

/-- Impl of RelativeHumidityThresholdSet for MockHumiditySensor (low). -/
def MockHumiditySensor.set_relative_humidity_threshold_low (s : MockHumiditySensor)
    (threshold : Percentage) : Except MockError Unit × MockHumiditySensor :=
  (.ok (), { s with threshold_low := some threshold })

/-- Impl of RelativeHumidityThresholdSet for MockHumiditySensor (high). -/
def MockHumiditySensor.set_relative_humidity_threshold_high (s : MockHumiditySensor)
    (threshold : Percentage) : Except MockError Unit × MockHumiditySensor :=
  (.ok (), { s with threshold_high := some threshold })

/-- Impl of RelativeHumidityHysteresis for MockHumiditySensor. -/
def MockHumiditySensor.set_relative_humidity_threshold_hysteresis
    (s : MockHumiditySensor) (hysteresis : Percentage) :
    Except MockError Unit × MockHumiditySensor :=
  (.ok (), { s with hysteresis := some hysteresis })

/-- MockAsyncHumiditySensor state (async humidity.rs test module): bare
Percentage threshold fields, no Option. -/
structure MockAsyncHumiditySensor where
  value : Percentage
  threshold_low : Percentage
  threshold_high : Percentage
deriving DecidableEq

/-- Impl of RelativeHumiditySensor for MockAsyncHumiditySensor. -/
def MockAsyncHumiditySensor.relative_humidity (s : MockAsyncHumiditySensor) :
    Except MockError Percentage × MockAsyncHumiditySensor :=
  (.ok s.value, s)

/-- Impl of RelativeHumidityThresholdSet for MockAsyncHumiditySensor (low). -/
def MockAsyncHumiditySensor.set_relative_humidity_threshold_low
    (s : MockAsyncHumiditySensor) (threshold : Percentage) :
    Except MockError Unit × MockAsyncHumiditySensor :=
  (.ok (), { s with threshold_low := threshold })

/-- Impl of RelativeHumidityThresholdSet for MockAsyncHumiditySensor (high). -/
def MockAsyncHumiditySensor.set_relative_humidity_threshold_high
    (s : MockAsyncHumiditySensor) (threshold : Percentage) :
    Except MockError Unit × MockAsyncHumiditySensor :=
  (.ok (), { s with threshold_high := threshold })

/-- A finite sequence of repeated reads through the TemperatureSensor
capability with no intervening state-mutating calls: the list of results
in order, paired with the final state. -/
def MockTempSensor.repeatedTemperatureReads :
    Nat → MockTempSensor → List (Except MockError DegreesCelsius) × MockTempSensor
  | 0, s => ([], s)
  | n + 1, s =>
    let (r, s1) := s.temperature
    let (rs, s2) := MockTempSensor.repeatedTemperatureReads n s1
    (r :: rs, s2)

/-- A finite sequence of repeated reads through the RelativeHumiditySensor
capability with no intervening state-mutating calls. -/
def MockHumiditySensor.repeatedRelativeHumidityReads :
    Nat → MockHumiditySensor → List (Except MockError Percentage) × MockHumiditySensor
  | 0, s => ([], s)
  | n + 1, s =>
    let (r, s1) := s.relative_humidity
    let (rs, s2) := MockHumiditySensor.repeatedRelativeHumidityReads n s1
    (r :: rs, s2)

/-! ## Theorems -/

/-- Claim C3: for every value k of the ErrorKind enumeration, kind() on k
returns k itself: the Error impl on ErrorKind is the identity, checked on
each of the five variants and in general. -/
theorem errorKind_kind_is_identity :
    (∀ k : ErrorKind, errorKindErrorImpl.kind k = k) ∧
    errorKindErrorImpl.kind ErrorKind.Peripheral = ErrorKind.Peripheral ∧
    errorKindErrorImpl.kind ErrorKind.NotReady = ErrorKind.NotReady ∧
    errorKindErrorImpl.kind ErrorKind.Saturated = ErrorKind.Saturated ∧
    errorKindErrorImpl.kind ErrorKind.InvalidInput = ErrorKind.InvalidInput ∧
    errorKindErrorImpl.kind ErrorKind.Other = ErrorKind.Other :=
  ⟨fun _ => rfl, rfl, rfl, rfl, rfl, rfl⟩

/-- Claim C7: the Error impl for the uninhabited type Infallible is total:
for every value of that type (there are none) kind() returns an ErrorKind,
the empty match being exhaustive, and the type is indeed uninhabited so no
failure branch is reachable. -/
theorem infallible_error_impl_total :
    (∀ e : Infallible, ∃ k : ErrorKind, infallibleErrorImpl.kind e = k) ∧
    (Infallible → False) :=
  And.intro (fun e => nomatch e) (fun e => nomatch e)

/-- Claim C10: the ErrorType impl for an exclusive mutable reference
associates exactly the error type of the underlying type, with the same
Error dictionary, hence the same ErrorKind classification for every
error value. -/
theorem mutRef_errorType_preserves_error_association :
    ∀ (T : Type) (d : ErrorTypeDict T),
      (mutRefErrorType d).Error = d.Error ∧
      (mutRefErrorType d).errorImpl = d.errorImpl ∧
      ∀ e, ((mutRefErrorType d).errorImpl).kind e = d.errorImpl.kind e :=
  fun _ _ => ⟨rfl, rfl, fun _ => rfl⟩

/-- Claim C2: for every implementation of a sensor capability (base
temperature and relative-humidity reads, ThresholdSet, Hysteresis,
ThresholdWait), the forwarding impl for an exclusive mutable reference
returns, on every state and every input, a result identical to invoking
the operation directly on the underlying implementation. -/
theorem mutRef_forwarding_preserves_results :
    ∀ (S E Sample : Type) (ds : TemperatureSensorDict S E)
      (dh : RelativeHumiditySensorDict S E) (dt : ThresholdSetDict S E Sample)
      (dy : HysteresisDict S E Sample) (dw : ThresholdWaitDict S E Sample)
      (s : S) (x : Sample),
      (mutRefTemperatureSensor ds).temperature s = ds.temperature s ∧
      (mutRefRelativeHumiditySensor dh).relative_humidity s = dh.relative_humidity s ∧
      (mutRefThresholdSet dt).set_threshold_low s x = dt.set_threshold_low s x ∧
      (mutRefThresholdSet dt).set_threshold_high s x = dt.set_threshold_high s x ∧
      (mutRefHysteresis dy).set_threshold_hysteresis s x = dy.set_threshold_hysteresis s x ∧
      (mutRefThresholdWait dw).wait_for_threshold s = dw.wait_for_threshold s :=
  fun _ _ _ _ _ _ _ _ _ _ => ⟨rfl, rfl, rfl, rfl, rfl, rfl⟩

/-- Claim C4: on the mock drivers implementing ThresholdSet, setting the
low threshold to L and the high threshold to H in either order leaves both
bounds independently observable as exactly L and H, each setter succeeds,
and neither setter modifies the other bound. Shown for MockTempSensor
(blocking) and MockAsyncHumiditySensor (async). -/
theorem mock_threshold_setters_independent :
    ∀ (s : MockTempSensor) (L H : DegreesCelsius)
      (a : MockAsyncHumiditySensor) (P Q : Percentage),
      ((s.set_temperature_threshold_low L).2.set_temperature_threshold_high H).2.threshold_low
        = some L ∧
      ((s.set_temperature_threshold_low L).2.set_temperature_threshold_high H).2.threshold_high
        = some H ∧
      ((s.set_temperature_threshold_high H).2.set_temperature_threshold_low L).2.threshold_low
        = some L ∧
      ((s.set_temperature_threshold_high H).2.set_temperature_threshold_low L).2.threshold_high
        = some H ∧
      (s.set_temperature_threshold_low L).1 = Except.ok () ∧
      (s.set_temperature_threshold_high H).1 = Except.ok () ∧
      (s.set_temperature_threshold_low L).2.threshold_high = s.threshold_high ∧
      (s.set_temperature_threshold_high H).2.threshold_low = s.threshold_low ∧
      ((a.set_relative_humidity_threshold_low P).2.set_relative_humidity_threshold_high Q).2.threshold_low
        = P ∧
      ((a.set_relative_humidity_threshold_low P).2.set_relative_humidity_threshold_high Q).2.threshold_high
        = Q ∧
      ((a.set_relative_humidity_threshold_high Q).2.set_relative_humidity_threshold_low P).2.threshold_low
        = P ∧
      ((a.set_relative_humidity_threshold_high Q).2.set_relative_humidity_threshold_low P).2.threshold_high
        = Q ∧
      (a.set_relative_humidity_threshold_low P).2.threshold_high = a.threshold_high ∧
      (a.set_relative_humidity_threshold_high Q).2.threshold_low = a.threshold_low :=
  fun _ _ _ _ _ _ =>
    ⟨rfl, rfl, rfl, rfl, rfl, rfl, rfl, rfl, rfl, rfl, rfl, rfl, rfl, rfl⟩

/-- Claim C5: on the mock drivers implementing Hysteresis, setting the
hysteresis to B succeeds and makes B observable as the stored hysteresis
value; the hysteresis setter leaves both threshold bounds unchanged, and
the threshold setters leave the stored hysteresis unchanged, also after
thresholds were set first. Shown for MockTempSensor and
MockHumiditySensor. -/
theorem mock_hysteresis_independent_of_thresholds :
    ∀ (s : MockTempSensor) (B L H : DegreesCelsius)
      (m : MockHumiditySensor) (C P Q : Percentage),
      (s.set_temperature_threshold_hysteresis B).1 = Except.ok () ∧
      (s.set_temperature_threshold_hysteresis B).2.hysteresis = some B ∧
      (s.set_temperature_threshold_hysteresis B).2.threshold_low = s.threshold_low ∧
      (s.set_temperature_threshold_hysteresis B).2.threshold_high = s.threshold_high ∧
      (s.set_temperature_threshold_low L).2.hysteresis = s.hysteresis ∧
      (s.set_temperature_threshold_high H).2.hysteresis = s.hysteresis ∧
      ((((s.set_temperature_threshold_low L).2.set_temperature_threshold_high
          H).2.set_temperature_threshold_hysteresis B).2.hysteresis = some B) ∧
      (m.set_relative_humidity_threshold_hysteresis C).1 = Except.ok () ∧
      (m.set_relative_humidity_threshold_hysteresis C).2.hysteresis = some C ∧
      (m.set_relative_humidity_threshold_hysteresis C).2.threshold_low = m.threshold_low ∧
      (m.set_relative_humidity_threshold_hysteresis C).2.threshold_high = m.threshold_high ∧
      (m.set_relative_humidity_threshold_low P).2.hysteresis = m.hysteresis ∧
      (m.set_relative_humidity_threshold_high Q).2.hysteresis = m.hysteresis :=
  fun _ _ _ _ _ _ _ _ =>
    ⟨rfl, rfl, rfl, rfl, rfl, rfl, rfl, rfl, rfl, rfl, rfl, rfl, rfl⟩

/-- Claim C9: for a mock driver whose stored sample value is fixed, every
read via the base Sensor capability returns Ok of that value, and any
finite sequence of repeated reads with no intervening state-mutating calls
returns the value every time and leaves the state unchanged. Shown for
MockTempSensor and MockHumiditySensor. -/
theorem mock_repeated_reads_return_stored_value :
    ∀ (n : Nat) (s : MockTempSensor) (m : MockHumiditySensor),
      s.temperature = (Except.ok s.value, s) ∧
      m.relative_humidity = (Except.ok m.value, m) ∧
      MockTempSensor.repeatedTemperatureReads n s
        = (List.replicate n (Except.ok s.value), s) ∧
      MockHumiditySensor.repeatedRelativeHumidityReads n m
        = (List.replicate n (Except.ok m.value), m) := by
  intro n s m
  refine ⟨rfl, rfl, ?_, ?_⟩
  · induction n with
    | zero => rfl
    | succ k ih =>
      simp [MockTempSensor.repeatedTemperatureReads, MockTempSensor.temperature,
        ih, List.replicate_succ]
  · induction n with
    | zero => rfl
    | succ k ih =>
      simp [MockHumiditySensor.repeatedRelativeHumidityReads,
        MockHumiditySensor.relative_humidity, ih, List.replicate_succ]

/-- Claim C8: any error surfaced through a fallible capability operation
lets a generic caller retrieve exactly one ErrorKind via kind() without
knowing the concrete error type; for the mock error type whose kind()
always returns Other, the retrieved kind is ErrorKind.Other for every
surfaced error. -/
theorem mock_error_surfaces_other_to_generic_caller (A : Type)
    (r : Except MockError A) (e : MockError) (h : r = Except.error e) :
    errorKindOf mockErrorImpl r = some ErrorKind.Other ∧
    mockErrorImpl.kind e = ErrorKind.Other := by
  subst h
  exact ⟨rfl, rfl⟩

/-- Witness for claim C8 at the concrete error result Err(MockError) of a
fallible operation returning unit. -/
theorem mock_error_surfaces_other_to_generic_caller_witness :
    errorKindOf mockErrorImpl (Except.error MockError.mk : Except MockError Unit)
      = some ErrorKind.Other ∧
    mockErrorImpl.kind MockError.mk = ErrorKind.Other :=
  mock_error_surfaces_other_to_generic_caller Unit (Except.error MockError.mk)
    MockError.mk rfl

/-- Claim C1: the async arm of decl_threshold_traits does define, for
RelativeHumidity, a ThresholdWait capability with supertrait ThresholdSet
whose single operation wait_for_relative_humidity_threshold returns the
Percentage sample present at crossing time; but the actual invocation in
embedded-sensors-async/src/humidity.rs passes no mode selector, so it
matches neither macro arm and no trait family (ThresholdWait included) is
generated for the async RelativeHumidity quantity. The first conjunct
evaluates the macro at the invocation as written (expansion fails); the
second shows what the async arm produces once the missing async mode token
is supplied. -/
theorem async_humidity_invocation_omits_mode_selector :
    decl_threshold_traits asyncHumidityInvocation = none ∧
    decl_threshold_traits (MacroToken.kwAsync :: asyncHumidityInvocation) =
      some
        { traits :=
            [ { name := "RelativeHumidityThresholdSet",
                supertrait := "RelativeHumiditySensor",
                ops :=
                  [ { name := "set_relative_humidity_threshold_low",
                      isAsync := true, paramTypes := ["Percentage"],
                      resultType := "()" },
                    { name := "set_relative_humidity_threshold_high",
                      isAsync := true, paramTypes := ["Percentage"],
                      resultType := "()" } ] },
              { name := "RelativeHumidityThresholdWait",
                supertrait := "RelativeHumidityThresholdSet",
                ops :=
                  [ { name := "wait_for_relative_humidity_threshold",
                      isAsync := true, paramTypes := [],
                      resultType := "Percentage" } ] },
              { name := "RelativeHumidityHysteresis",
                supertrait := "RelativeHumidityThresholdSet",
                ops :=
                  [ { name := "set_relative_humidity_threshold_hysteresis",
                      isAsync := true, paramTypes := ["Percentage"],
                      resultType := "()" } ] } ],
          mutRefImpls :=
            [ "RelativeHumidityThresholdSet", "RelativeHumidityThresholdWait",
              "RelativeHumidityHysteresis" ] } :=
  ⟨rfl, by decide⟩

/-- Claim C6: the blocking arm of decl_threshold_traits generates exactly
two capabilities, ThresholdSet (two synchronous setters, supertrait the
base sensor trait) and Hysteresis (one synchronous setter, supertrait
ThresholdSet), and no ThresholdWait capability: shown at the Temperature
and RelativeHumidity blocking invocations, and in general for every
quantity the blocking expansion declares exactly those two trait names
with only synchronous operations. -/
theorem blocking_profile_has_no_threshold_wait :
    decl_threshold_traits blockingTemperatureInvocation =
      some
        { traits :=
            [ { name := "TemperatureThresholdSet",
                supertrait := "TemperatureSensor",
                ops :=
                  [ { name := "set_temperature_threshold_low", isAsync := false,
                      paramTypes := ["DegreesCelsius"], resultType := "()" },
                    { name := "set_temperature_threshold_high", isAsync := false,
                      paramTypes := ["DegreesCelsius"], resultType := "()" } ] },
              { name := "TemperatureHysteresis",
                supertrait := "TemperatureThresholdSet",
                ops :=
                  [ { name := "set_temperature_threshold_hysteresis",
                      isAsync := false, paramTypes := ["DegreesCelsius"],
                      resultType := "()" } ] } ],
          mutRefImpls := ["TemperatureThresholdSet", "TemperatureHysteresis"] } ∧
    decl_threshold_traits blockingHumidityInvocation =
      some
        { traits :=
            [ { name := "RelativeHumidityThresholdSet",
                supertrait := "RelativeHumiditySensor",
                ops :=
                  [ { name := "set_relative_humidity_threshold_low",
                      isAsync := false, paramTypes := ["Percentage"],
                      resultType := "()" },
                    { name := "set_relative_humidity_threshold_high",
                      isAsync := false, paramTypes := ["Percentage"],
                      resultType := "()" } ] },
              { name := "RelativeHumidityHysteresis",
                supertrait := "RelativeHumidityThresholdSet",
                ops :=
                  [ { name := "set_relative_humidity_threshold_hysteresis",
                      isAsync := false, paramTypes := ["Percentage"],
                      resultType := "()" } ] } ],
          mutRefImpls :=
            ["RelativeHumidityThresholdSet", "RelativeHumidityHysteresis"] } ∧
    (∀ quantity sensorTrait sampleTy unit : String,
      ((blockingThresholdTraits quantity sensorTrait sampleTy unit).traits.map
          (fun t => t.name)) =
        [quantity ++ "ThresholdSet", quantity ++ "Hysteresis"] ∧
      ((blockingThresholdTraits quantity sensorTrait sampleTy unit).traits.map
          (fun t => t.ops.map (fun o => o.isAsync))) = [[false, false], [false]]) :=
  ⟨by decide, by decide, fun _ _ _ _ => ⟨rfl, rfl⟩⟩

end EmbeddedSensors
